import Mathlib

/-!
Verification of the find-your-keeb storefront UI against its design
specification.

The development shallowly embeds the four screens of the repository:

* `Home` (src/src/pages/Home.tsx): featured-product cards with a stock
  chip and an add-to-cart handler;
* `ProductDetail` (src/unnamed/part_000): stock alerts, a quantity
  stepper and an add-to-cart handler;
* `AdminOrders` (src/unnamed/part_001): the order table and the
  status-update dialog with its submit handler;
* `AdminProductForm` (src/unnamed/part_002): client-side validation and
  the create-product submit handler.

Event handlers are embedded as pure functions from the screen state
(plus an oracle giving the outcome of each backend call) to the new
screen state together with the list of emitted effects (navigations and
backend calls), in program order.  The JavaScript builtins the handlers
call (`parseFloat`, `parseInt`, `Intl.NumberFormat`) are embedded from
their ECMA-262 / ECMA-402 semantics; numbers are modelled exactly over
the rationals, so double rounding at extreme magnitudes is out of model.
-/

/-! ## Data model (src/types, as consumed by the four screens) -/

/-- Order lifecycle values, from the `OrderStatus` enumeration. -/
inductive OrderStatus where
  | PENDING
  | CONFIRMED
  | SHIPPED
  | DELIVERED
  | CANCELLED
deriving DecidableEq, Repr

/-- A catalog product as rendered by Home and ProductDetail. -/
structure Product where
  id : Nat
  name : String
  description : String
  price : ℚ
  brand : String
  layout : String
  switchType : String
  keycapMaterial : String
  caseMaterial : String
  rgbSupport : Bool
  wirelessSupport : Bool
  stockQuantity : Nat
  imageUrl : String
deriving DecidableEq, Repr

/-- One line of an order (embedded product plus quantity). -/
structure OrderItem where
  product : Product
  quantity : Nat
deriving DecidableEq, Repr

/-- An order as rendered by the AdminOrders table. -/
structure Order where
  id : Nat
  userId : Nat
  items : List OrderItem
  totalAmount : ℚ
  status : OrderStatus
  createdAt : String
deriving DecidableEq, Repr

/-! ## JavaScript number builtins

The admin product form validates its text fields through the global
`parseFloat` and `parseInt` functions.  These builtins are embedded from
ECMA-262: strip leading whitespace, read an optional sign, then read the
longest valid numeric literal; the empty literal yields NaN.  Values are
kept exact in ℚ (the sign and NaN-ness of a parse, which is all the
validation inspects, agree with the double-rounded value except at
magnitudes beyond the double range). -/

/-- A JavaScript number as produced by `parseFloat`: NaN, an infinity,
or a finite value kept exactly as a scaled decimal, with value
mantissa * 10 ^ exp10 (the decimal literal read from the input is exact
in this form, and integer components keep every operation on parse
results kernel-computable). -/
inductive JSNumber where
  | nan
  | posInf
  | negInf
  | num (mantissa : Int) (exp10 : Int)
deriving DecidableEq, Repr

/-- The rational value of a finite parse result. -/
def JSNumber.finiteVal : JSNumber → Option ℚ
  | .num m e => some ((m : ℚ) * 10 ^ e)
  | _ => none

/-- The JavaScript `isNaN` test on a parse result. -/
def JSNumber.isNaN : JSNumber → Bool
  | .nan => true
  | _ => false

/-- The JavaScript comparison `x <= 0`; false on NaN.  On a finite
value mantissa * 10 ^ exp10 the comparison holds exactly when the
mantissa is nonpositive, since the power of ten is positive (the lemma
`JSNumber_le0_agrees_with_value` checks this against the value). -/
def JSNumber.le0 : JSNumber → Bool
  | .nan => false
  | .posInf => false
  | .negInf => true
  | .num m _ => m ≤ 0

/-- Whitespace accepted before a numeric literal. -/
def isWhitespaceChar (c : Char) : Bool :=
  c == ' ' || c == '\t' || c == '\n' || c == '\r'

/-- Value of a decimal digit character. -/
def digitVal (c : Char) : Nat := c.toNat - '0'.toNat

/-- Decimal digit string to a natural number. -/
def digitsToNat (ds : List Char) : Nat :=
  ds.foldl (fun acc c => 10 * acc + digitVal c) 0

/-- Hexadecimal digit test. -/
def isHexDigitChar (c : Char) : Bool :=
  c.isDigit || (decide ('a' ≤ c) && decide (c ≤ 'f'))
    || (decide ('A' ≤ c) && decide (c ≤ 'F'))

/-- Value of a hexadecimal digit character. -/
def hexDigitVal (c : Char) : Nat :=
  if c.isDigit then c.toNat - '0'.toNat
  else if decide ('a' ≤ c) && decide (c ≤ 'f') then c.toNat - 'a'.toNat + 10
  else c.toNat - 'A'.toNat + 10

/-- Hexadecimal digit string to a natural number. -/
def hexDigitsToNat (ds : List Char) : Nat :=
  ds.foldl (fun acc c => 16 * acc + hexDigitVal c) 0

/-- Read an optional sign; returns whether the value is negated and the
remaining characters. -/
def parseSign (cs : List Char) : Bool × List Char :=
  match cs with
  | '-' :: rest => (true, rest)
  | '+' :: rest => (false, rest)
  | _ => (false, cs)

/-- Recognise the literal `Infinity` at the head of the input. -/
def dropInfinityLit (cs : List Char) : Option (List Char) :=
  match cs with
  | 'I' :: 'n' :: 'f' :: 'i' :: 'n' :: 'i' :: 't' :: 'y' :: rest => some rest
  | _ => none

/-- Read an exponent part after the letter e or E: an optional sign and
digits.  Without digits the exponent is not part of the longest valid
literal and contributes nothing. -/
def parseExponent (cs : List Char) : Int :=
  let sp := parseSign cs
  let ds := sp.2.takeWhile Char.isDigit
  if ds.isEmpty then 0
  else if sp.1 then -(digitsToNat ds : Int) else (digitsToNat ds : Int)

/-- Model of the JavaScript builtin `parseFloat` (ECMA-262
StrDecimalLiteral on the longest valid input head), exact as a scaled
decimal: the integer and fraction digits concatenated form the
mantissa, and the exponent part minus the number of fraction digits
forms the power of ten. -/
def jsParseFloat (s : String) : JSNumber :=
  let cs := s.toList.dropWhile isWhitespaceChar
  let sp := parseSign cs
  match dropInfinityLit sp.2 with
  | some _ => if sp.1 then JSNumber.negInf else JSNumber.posInf
  | none =>
    let intDigits := sp.2.takeWhile Char.isDigit
    let afterInt := sp.2.dropWhile Char.isDigit
    let fracPair : List Char × List Char :=
      match afterInt with
      | '.' :: rest => (rest.takeWhile Char.isDigit, rest.dropWhile Char.isDigit)
      | _ => ([], afterInt)
    if intDigits.isEmpty && fracPair.1.isEmpty then JSNumber.nan
    else
      let m : Nat := digitsToNat (intDigits ++ fracPair.1)
      let expPart : Int :=
        match fracPair.2 with
        | 'e' :: rest => parseExponent rest
        | 'E' :: rest => parseExponent rest
        | _ => 0
      JSNumber.num (if sp.1 then -(m : Int) else (m : Int))
        (expPart - fracPair.1.length)

/-- Hexadecimal tail of `parseInt` after a 0x or 0X head. -/
def parseIntHexTail (neg : Bool) (cs : List Char) : Option Int :=
  let ds := cs.takeWhile isHexDigitChar
  if ds.isEmpty then none
  else if neg then some (-(hexDigitsToNat ds : Int)) else some ((hexDigitsToNat ds : Int))

/-- Model of the JavaScript builtin `parseInt` called with no radix
argument (ECMA-262): strip whitespace, read an optional sign, then a
0x/0X-headed hexadecimal literal or a decimal digit run; `none` stands
for NaN. -/
def jsParseInt (s : String) : Option Int :=
  let cs := s.toList.dropWhile isWhitespaceChar
  let sp := parseSign cs
  match sp.2 with
  | '0' :: 'x' :: rest => parseIntHexTail sp.1 rest
  | '0' :: 'X' :: rest => parseIntHexTail sp.1 rest
  | other =>
    let ds := other.takeWhile Char.isDigit
    if ds.isEmpty then none
    else if sp.1 then some (-(digitsToNat ds : Int)) else some ((digitsToNat ds : Int))

/-- The JavaScript comparison `x < 0` on a `parseInt` result; false on
NaN. -/
def optIntLtZero : Option Int → Bool
  | none => false
  | some n => n < 0

/-! ## Currency formatting

Each screen defines the same local helper

  formatPrice = (price) => Intl.NumberFormat(en-US, currency USD).format(price)

(src/src/pages/Home.tsx lines 65-70, src/unnamed/part_000 lines 69-74,
src/unnamed/part_001 lines 83-88).  The builtin is embedded from
ECMA-402 for that locale and currency: round to two fraction digits
(half away from zero), group the integer part in threes with commas, and
put a dollar sign in front. -/

/-- Cents value of a price: the amount scaled by 100 and rounded half
away from zero, as the en-US USD number format does.  For a nonnegative
price n / d this is the floor of 100 * n / d + 1 / 2 =
(200 * n + d) / (2 * d), taken by integer division on the numerator and
denominator (the T-division of the nonnegative operands is the floor);
a negative price is rounded through its absolute value. -/
def roundHalfExpandCents (price : ℚ) : Int :=
  if price.num < 0 then
    -((200 * (-price.num) + (price.den : Int)) / (2 * (price.den : Int)))
  else (200 * price.num + (price.den : Int)) / (2 * (price.den : Int))

/-- Decimal digits of a natural number with a comma before every group
of three, as the en-US locale groups integer parts. -/
def natWithThousandsSeparators (n : Nat) : String :=
  let cs := (toString n).toList
  let len := cs.length
  String.mk (cs.enum.foldr
    (fun ic acc =>
      if ic.1 != 0 && (len - ic.1) % 3 == 0 then ',' :: ic.2 :: acc
      else ic.2 :: acc) [])

/-- Two-digit rendering of a cents remainder. -/
def padCentsTwo (n : Nat) : String :=
  if n < 10 then "0" ++ toString n else toString n

/-- Model of the `formatPrice` helper shared verbatim by Home,
ProductDetail and AdminOrders: en-US USD currency formatting. -/
def formatPrice (price : ℚ) : String :=
  let cents := roundHalfExpandCents price
  if cents < 0 then
    "-$" ++ natWithThousandsSeparators ((-cents).toNat / 100)
      ++ "." ++ padCentsTwo ((-cents).toNat % 100)
  else
    "$" ++ natWithThousandsSeparators (cents.toNat / 100)
      ++ "." ++ padCentsTwo (cents.toNat % 100)

/-! ## Effects emitted by event handlers -/

/-- The payload the admin product form submits to the create-product
call: the form fields with price and stock quantity replaced by their
parsed numeric values (src/unnamed/part_002 lines 91-95). -/
structure ProductPayload where
  name : String
  description : String
  price : JSNumber
  brand : String
  layout : String
  switchType : String
  keycapMaterial : String
  caseMaterial : String
  rgbSupport : Bool
  wirelessSupport : Bool
  stockQuantity : Option Int
  imageUrl : String
deriving DecidableEq, Repr

/-- Observable effects of the embedded handlers: client-side navigations
and backend API calls, recorded in program order. -/
inductive Effect where
  | navigateTo (route : String)
  | callAddToCart (productId : Nat) (quantity : Nat)
  | callUpdateOrderStatus (orderId : Nat) (status : OrderStatus)
  | callGetAllOrders
  | callCreateProduct (data : ProductPayload)
  | scheduleNavigate (delayMs : Nat) (route : String)
deriving DecidableEq, Repr

/-! ## Stock-status rendering (Home card and ProductDetail) -/

/-- The stock-status elements a screen can render for a product. -/
inductive StockIndicator where
  | inStockChip (count : Nat)
  | outOfStockChip
  | outOfStockAlert
  | lowStockAlert (count : Nat)
deriving DecidableEq, Repr

/-- Stock-status elements of a Home featured-product card
(src/src/pages/Home.tsx lines 280-287): one chip, either
`In Stock (n)` or `Out of Stock`. -/
def homeCardStockIndicators (stockQuantity : Nat) : List StockIndicator :=
  if stockQuantity > 0 then [StockIndicator.inStockChip stockQuantity]
  else [StockIndicator.outOfStockChip]

/-- Stock-status elements of the ProductDetail screen
(src/unnamed/part_000 lines 139-157): the chip, an out-of-stock alert
when the quantity is zero, and a low-stock alert when it is positive and
at most five. -/
def productDetailStockIndicators (stockQuantity : Nat) : List StockIndicator :=
  (if stockQuantity > 0 then [StockIndicator.inStockChip stockQuantity]
   else [StockIndicator.outOfStockChip])
  ++ (if stockQuantity = 0 then [StockIndicator.outOfStockAlert] else [])
  ++ (if stockQuantity > 0 ∧ stockQuantity ≤ 5 then [StockIndicator.lowStockAlert stockQuantity]
      else [])

/-- A low-stock warning occurs among the rendered elements. -/
def hasLowStockWarning (indicators : List StockIndicator) : Bool :=
  indicators.any fun i =>
    match i with
    | StockIndicator.lowStockAlert _ => true
    | _ => false

/-- An out-of-stock warning (chip or alert) occurs among the rendered
elements. -/
def hasOutOfStockWarning (indicators : List StockIndicator) : Bool :=
  indicators.any fun i =>
    match i with
    | StockIndicator.outOfStockChip => true
    | StockIndicator.outOfStockAlert => true
    | _ => false

/-! ## ProductDetail quantity stepper (src/unnamed/part_000 lines 217-235) -/

/-- A click on one of the two stepper buttons. -/
inductive StepperAction where
  | increment
  | decrement
deriving DecidableEq, Repr

/-- One stepper transition.  The decrement button is disabled at
quantity at most one, otherwise it sets max(1, q - 1); the increment
button is disabled at quantity at least the stock, otherwise it sets
q + 1.  A disabled button leaves the quantity unchanged. -/
def stepQuantity (stockQuantity : Nat) (q : Nat) : StepperAction → Nat
  | StepperAction.decrement => if q ≤ 1 then q else max 1 (q - 1)
  | StepperAction.increment => if q ≥ stockQuantity then q else q + 1

/-- Quantity after a sequence of stepper clicks, from the initial
useState value 1 (src/unnamed/part_000 line 28). -/
def runStepper (stockQuantity : Nat) (actions : List StepperAction) : Nat :=
  actions.foldl (stepQuantity stockQuantity) 1

/-! ## Add-to-cart handlers -/

/-- The `handleAddToCart` of Home (src/src/pages/Home.tsx lines 52-63):
redirect to the login route when unauthenticated, otherwise call the
cart holder with quantity 1; a failing call is only logged. -/
def homeHandleAddToCart (isAuthenticated : Bool) (productId : Nat) : List Effect :=
  if !isAuthenticated then [Effect.navigateTo "/login"]
  else [Effect.callAddToCart productId 1]

/-- The `handleAddToCart` of ProductDetail (src/unnamed/part_000 lines
54-67): redirect to the login route when unauthenticated, return when no
product is loaded, otherwise call the cart holder with the stepper
quantity; a failing call is only logged. -/
def detailHandleAddToCart (isAuthenticated : Bool) (product : Option Product)
    (quantity : Nat) : List Effect :=
  if !isAuthenticated then [Effect.navigateTo "/login"]
  else
    match product with
    | none => []
    | some p => [Effect.callAddToCart p.id quantity]

/-! ## AdminOrders screen (src/unnamed/part_001) -/

/-- The useState fields of the AdminOrders screen (lines 38-43). -/
structure AdminOrdersState where
  orders : List Order
  loading : Bool
  error : Option String
  statusDialogOpen : Bool
  selectedOrder : Option Order
  newStatus : OrderStatus
deriving DecidableEq, Repr

/-- The body of `fetchOrders` (lines 49-61), applied to the outcome of
the getAllOrders call: on success store the data and clear the error; on
failure set the error message; either way loading ends false. -/
def fetchOrdersRun (s : AdminOrdersState)
    (fetchResult : Except Unit (List Order)) : AdminOrdersState :=
  match fetchResult with
  | Except.ok data => { s with orders := data, error := none, loading := false }
  | Except.error _ => { s with error := some "Failed to load orders", loading := false }

/-- The `handleStatusSubmit` confirm handler of the status dialog
(lines 69-81), as a function of the update-call and fetch-call
outcomes.  With no selected order it returns at once.  Otherwise it
awaits updateOrderStatus; on success it awaits fetchOrders (whose own
failures are caught internally), closes the dialog and clears the
selection; on failure it only sets the error message, so the statements
after the failing await never run. -/
def handleStatusSubmit (s : AdminOrdersState)
    (updateResult : Except Unit Unit)
    (fetchResult : Except Unit (List Order)) :
    AdminOrdersState × List Effect :=
  match s.selectedOrder with
  | none => (s, [])
  | some sel =>
    match updateResult with
    | Except.error _ =>
      ({ s with error := some "Failed to update order status" },
       [Effect.callUpdateOrderStatus sel.id s.newStatus])
    | Except.ok _ =>
      let s1 := fetchOrdersRun s fetchResult
      ({ s1 with statusDialogOpen := false, selectedOrder := none },
       [Effect.callUpdateOrderStatus sel.id s.newStatus, Effect.callGetAllOrders])

/-! ## AdminProductForm screen (src/unnamed/part_002) -/

/-- The formData useState fields of the form (lines 33-46); price and
stock quantity are the raw text-input strings. -/
structure FormData where
  name : String
  description : String
  price : String
  brand : String
  layout : String
  switchType : String
  keycapMaterial : String
  caseMaterial : String
  rgbSupport : Bool
  wirelessSupport : Bool
  stockQuantity : String
  imageUrl : String
deriving DecidableEq, Repr

/-- The remaining useState fields of the form screen (lines 27-29). -/
structure FormState where
  loading : Bool
  error : Option String
  success : Option String
  formData : FormData
deriving DecidableEq, Repr

/-- The required-field check of `handleSubmit` (line 72): a JavaScript
falsiness test on the five string fields, which for strings is the
empty-string test. -/
def requiredFieldMissing (fd : FormData) : Bool :=
  fd.name == "" || fd.description == "" || fd.price == ""
    || fd.brand == "" || fd.stockQuantity == ""

/-- The price check of `handleSubmit` (line 77):
isNaN(parseFloat(price)) or parseFloat(price) <= 0. -/
def priceInvalid (fd : FormData) : Bool :=
  (jsParseFloat fd.price).isNaN || (jsParseFloat fd.price).le0

/-- The stock-quantity check of `handleSubmit` (line 82):
isNaN(parseInt(s)) or parseInt(s) < 0. -/
def stockQuantityInvalid (fd : FormData) : Bool :=
  (jsParseInt fd.stockQuantity).isNone || optIntLtZero (jsParseInt fd.stockQuantity)

/-- The productData object built on the submit path (lines 91-95): the
form fields with price and stock quantity overridden by their parsed
values. -/
def productDataOf (fd : FormData) : ProductPayload :=
  { name := fd.name
    description := fd.description
    price := jsParseFloat fd.price
    brand := fd.brand
    layout := fd.layout
    switchType := fd.switchType
    keycapMaterial := fd.keycapMaterial
    caseMaterial := fd.caseMaterial
    rgbSupport := fd.rgbSupport
    wirelessSupport := fd.wirelessSupport
    stockQuantity := jsParseInt fd.stockQuantity
    imageUrl := fd.imageUrl }

/-- The `handleSubmit` handler of the form (lines 68-108), as a function
of the create-call outcome.  The three validation checks run in order
and each failing check sets its message and returns before any call.
On the submit path the create call is issued; on success the success
message is set and a navigation is scheduled after 1500 ms; on failure
the generic error message is set.  No branch touches formData. -/
def handleSubmit (s : FormState) (createResult : Except Unit Unit) :
    FormState × List Effect :=
  let fd := s.formData
  if requiredFieldMissing fd then
    ({ s with error := some "Please fill in all required fields" }, [])
  else if priceInvalid fd then
    ({ s with error := some "Please enter a valid price" }, [])
  else if stockQuantityInvalid fd then
    ({ s with error := some "Please enter a valid stock quantity" }, [])
  else
    match createResult with
    | Except.ok _ =>
      ({ s with loading := false, error := none,
                success := some "Product created successfully" },
       [Effect.callCreateProduct (productDataOf fd),
        Effect.scheduleNavigate 1500 "/admin/products"])
    | Except.error _ =>
      ({ s with loading := false, error := some "Failed to create product" },
       [Effect.callCreateProduct (productDataOf fd)])

/-! ## Concrete sample values used to instantiate the theorems -/

/-- A concrete catalog product. -/
def sampleProduct : Product :=
  { id := 1, name := "Keeb One", description := "A keyboard", price := 10,
    brand := "Acme", layout := "FULL_SIZE", switchType := "Red",
    keycapMaterial := "PBT", caseMaterial := "Aluminum", rgbSupport := false,
    wirelessSupport := false, stockQuantity := 3, imageUrl := "" }

/-- A concrete order over the sample product. -/
def sampleOrder : Order :=
  { id := 7, userId := 2, items := [{ product := sampleProduct, quantity := 1 }],
    totalAmount := 10, status := OrderStatus.PENDING, createdAt := "2024-01-01" }

/-- An AdminOrders state with the dialog open on the sample order. -/
def sampleAdminOrdersState : AdminOrdersState :=
  { orders := [sampleOrder], loading := false, error := none,
    statusDialogOpen := true, selectedOrder := some sampleOrder,
    newStatus := OrderStatus.SHIPPED }

/-- Form fields filled with plain values; the price and stock-quantity
strings vary per sample below. -/
def sampleFormData (price stockQuantity : String) : FormData :=
  { name := "Keeb One", description := "A keyboard", price := price,
    brand := "Acme", layout := "FULL_SIZE", switchType := "Red",
    keycapMaterial := "PBT", caseMaterial := "Aluminum", rgbSupport := false,
    wirelessSupport := false, stockQuantity := stockQuantity, imageUrl := "" }

/-- A form state whose price field holds the rejected input string. -/
def sampleInvalidPriceForm : FormState :=
  { loading := false, error := none, success := none,
    formData := sampleFormData "-5" "10" }

/-- A form state that passes every validation check. -/
def sampleValidForm : FormState :=
  { loading := false, error := none, success := none,
    formData := sampleFormData "129.99" "10" }

/-- A form state whose numeric fields carry trailing junk after a valid
numeric head. -/
def samplePrefixForm : FormState :=
  { loading := false, error := none, success := none,
    formData := sampleFormData "5abc" "3.9" }

/-! ## Sanity lemmas relating the integer shortcuts to the values -/

/-- The mantissa-sign implementation of the comparison with zero agrees
with the comparison on the represented rational value, since the power
of ten is positive. -/
theorem JSNumber_le0_agrees_with_value (m e : Int) :
    (JSNumber.num m e).le0 = decide ((m : ℚ) * 10 ^ e ≤ 0) := by
  have hpow : (0 : ℚ) < 10 ^ e := by positivity
  simp only [JSNumber.le0, decide_eq_decide]
  constructor
  · intro h
    exact mul_nonpos_iff.mpr (Or.inr ⟨by exact_mod_cast h, le_of_lt hpow⟩)
  · intro h
    by_contra hm
    push_neg at hm
    have hpos : (0 : ℚ) < (m : ℚ) * 10 ^ e :=
      mul_pos (by exact_mod_cast hm) hpow
    linarith

/-! ## C1: stock warnings on the home card and the product detail screen -/

/-- Claim C1 counterexample: a product with stock quantity 3 satisfies
1 ≤ 3 ≤ 5, yet the home card renders no low-stock warning — its only
stock element is the In Stock chip.  The claim, quantified over both
screens, therefore fails on the home card. -/
theorem c1_counterexample :
    (1 ≤ 3 ∧ 3 ≤ 5) ∧ hasLowStockWarning (homeCardStockIndicators 3) = false := by
  decide

/-- Claim C1 (amended): when the stock is in [1, 5] the product detail
screen renders a low-stock warning, at stock 0 it renders an
out-of-stock warning, and above 5 it renders neither; the home card
renders an out-of-stock warning at stock 0, renders neither warning
above 5, and never renders a low-stock warning. -/
theorem c1_stock_warnings_amended (q : Nat) :
    (1 ≤ q → q ≤ 5 → hasLowStockWarning (productDetailStockIndicators q) = true) ∧
    (q = 0 → hasOutOfStockWarning (productDetailStockIndicators q) = true ∧
      hasOutOfStockWarning (homeCardStockIndicators q) = true) ∧
    (5 < q → hasLowStockWarning (productDetailStockIndicators q) = false ∧
      hasOutOfStockWarning (productDetailStockIndicators q) = false ∧
      hasOutOfStockWarning (homeCardStockIndicators q) = false) ∧
    hasLowStockWarning (homeCardStockIndicators q) = false := by
  refine ⟨fun h1 h5 => ?_, fun h0 => ?_, fun h5 => ?_, ?_⟩ <;>
    · simp only [productDetailStockIndicators, homeCardStockIndicators,
        hasLowStockWarning, hasOutOfStockWarning]
      split_ifs <;> simp_all <;> omega

/-- Witness for the amended claim C1 at stock quantities 3 and 0. -/
theorem c1_stock_warnings_amended_witness :
    hasLowStockWarning (productDetailStockIndicators 3) = true ∧
    hasOutOfStockWarning (homeCardStockIndicators 0) = true ∧
    hasLowStockWarning (homeCardStockIndicators 3) = false :=
  ⟨(c1_stock_warnings_amended 3).1 (by decide) (by decide),
   ((c1_stock_warnings_amended 0).2.1 rfl).2,
   (c1_stock_warnings_amended 3).2.2.2⟩

/-! ## C2: admin status dialog behavior on update failure -/

/-- Claim C2 counterexample: with the dialog open on the sample order,
a failing update sets the error message, but the dialog-open flag stays
true — the line closing the dialog sits after the failing await inside
the try block and never runs, so the claim that the flag is false in
the failure run is wrong. -/
theorem c2_counterexample :
    (handleStatusSubmit sampleAdminOrdersState (Except.error ()) (Except.error ())).1.error
        = some "Failed to update order status" ∧
    ¬ (handleStatusSubmit sampleAdminOrdersState (Except.error ())
        (Except.error ())).1.statusDialogOpen = false := by
  decide

/-- Claim C2 (amended): with an order selected, a failing update sets
the error message and leaves the dialog-open flag unchanged (the dialog
stays open); the flag becomes false only in the success run. -/
theorem c2_dialog_close_amended (s : AdminOrdersState) (sel : Order)
    (fetchResult : Except Unit (List Order))
    (hsel : s.selectedOrder = some sel) :
    ((handleStatusSubmit s (Except.error ()) fetchResult).1.error
        = some "Failed to update order status" ∧
      (handleStatusSubmit s (Except.error ()) fetchResult).1.statusDialogOpen
        = s.statusDialogOpen) ∧
    (handleStatusSubmit s (Except.ok ()) fetchResult).1.statusDialogOpen = false := by
  simp [handleStatusSubmit, hsel]

/-- Witness for the amended claim C2 on the sample state. -/
theorem c2_dialog_close_amended_witness :
    (handleStatusSubmit sampleAdminOrdersState (Except.ok ())
        (Except.ok [])).1.statusDialogOpen = false :=
  (c2_dialog_close_amended sampleAdminOrdersState sampleOrder (Except.ok []) rfl).2

/-! ## C3: quantity stepper bounds -/

/-- One stepper transition preserves the interval [1, stock]. -/
theorem stepQuantity_bounds (stock q : Nat) (a : StepperAction)
    (h1 : 1 ≤ q) (h2 : q ≤ stock) :
    1 ≤ stepQuantity stock q a ∧ stepQuantity stock q a ≤ stock := by
  cases a <;> simp only [stepQuantity] <;> split_ifs <;> omega

/-- Folding stepper transitions from any quantity in [1, stock] stays
in [1, stock]. -/
theorem foldl_stepQuantity_bounds (stock : Nat) (actions : List StepperAction) :
    ∀ q, 1 ≤ q → q ≤ stock →
      1 ≤ actions.foldl (stepQuantity stock) q ∧
        actions.foldl (stepQuantity stock) q ≤ stock := by
  induction actions with
  | nil => exact fun q h1 h2 => ⟨h1, h2⟩
  | cons a rest ih =>
    intro q h1 h2
    have hb := stepQuantity_bounds stock q a h1 h2
    simpa using ih _ hb.1 hb.2

/-- With stock 0 both buttons are disabled at the initial quantity, so
folding transitions keeps the quantity at 1. -/
theorem foldl_stepQuantity_zero_stock (actions : List StepperAction) :
    actions.foldl (stepQuantity 0) 1 = 1 := by
  induction actions with
  | nil => rfl
  | cons a rest ih => cases a <;> simpa [stepQuantity] using ih

/-- Claim C3 counterexample: for a product with stock quantity 0 the
stepper quantity is 1 already before any action, and 1 does not lie in
the interval [1, 0] — the claimed invariant fails at zero stock. -/
theorem c3_counterexample :
    runStepper 0 [] = 1 ∧ ¬ runStepper 0 [] ≤ 0 := by decide

/-- Claim C3 (amended): for stock quantity at least 1 every sequence of
stepper actions keeps the quantity within [1, stockQuantity]; at stock
quantity 0 the quantity stays constantly 1, above the stock ceiling. -/
theorem c3_stepper_bounds_amended (stockQuantity : Nat) (actions : List StepperAction) :
    (1 ≤ stockQuantity →
      1 ≤ runStepper stockQuantity actions ∧
        runStepper stockQuantity actions ≤ stockQuantity) ∧
    (stockQuantity = 0 → runStepper stockQuantity actions = 1) := by
  constructor
  · intro h
    exact foldl_stepQuantity_bounds stockQuantity actions 1 le_rfl h
  · intro h
    subst h
    exact foldl_stepQuantity_zero_stock actions

/-- Witness for the amended claim C3 at stock 3 after two increments. -/
theorem c3_stepper_bounds_amended_witness :
    1 ≤ runStepper 3 [StepperAction.increment, StepperAction.increment] ∧
    runStepper 3 [StepperAction.increment, StepperAction.increment] ≤ 3 :=
  (c3_stepper_bounds_amended 3
    [StepperAction.increment, StepperAction.increment]).1 (by decide)

/-! ## C4: unauthenticated add-to-cart -/

/-- Claim C4: on both the home card and the product detail screen, an
unauthenticated add-to-cart action emits exactly the redirect to the
login route and no cart mutation call, so the cart is unchanged. -/
theorem c4_unauthenticated_add_to_cart (isAuthenticated : Bool)
    (productId quantity : Nat) (product : Option Product)
    (hauth : isAuthenticated = false) :
    homeHandleAddToCart isAuthenticated productId = [Effect.navigateTo "/login"] ∧
    detailHandleAddToCart isAuthenticated product quantity
        = [Effect.navigateTo "/login"] ∧
    (∀ pid q, Effect.callAddToCart pid q ∉ homeHandleAddToCart isAuthenticated productId) ∧
    (∀ pid q, Effect.callAddToCart pid q
        ∉ detailHandleAddToCart isAuthenticated product quantity) := by
  subst hauth
  refine ⟨rfl, rfl, ?_, ?_⟩ <;>
    intro pid q <;> simp [homeHandleAddToCart, detailHandleAddToCart]

/-- Witness for claim C4 at product id 1. -/
theorem c4_unauthenticated_add_to_cart_witness :
    homeHandleAddToCart false 1 = [Effect.navigateTo "/login"] ∧
    detailHandleAddToCart false (some sampleProduct) 1 = [Effect.navigateTo "/login"] :=
  ⟨(c4_unauthenticated_add_to_cart false 1 1 (some sampleProduct) rfl).1,
   (c4_unauthenticated_add_to_cart false 1 1 (some sampleProduct) rfl).2.1⟩

/-! ## C5: confirmed status change issues one update then one re-fetch -/

/-- Claim C5 counterexample: a confirmed status change whose update
call fails emits the one update call but no getAllOrders re-fetch — the
re-fetch sits after the failing await inside the try block — so the
unconditional claim that every confirmed change is followed by exactly
one re-fetch is wrong. -/
theorem c5_counterexample :
    (handleStatusSubmit sampleAdminOrdersState (Except.error ()) (Except.ok [])).2
        = [Effect.callUpdateOrderStatus 7 OrderStatus.SHIPPED] ∧
    Effect.callGetAllOrders ∉
      (handleStatusSubmit sampleAdminOrdersState (Except.error ()) (Except.ok [])).2 := by
  decide

/-- Claim C5 (amended): with an order selected, the confirm handler
emits exactly one update call carrying the selected order id and the
chosen status; when the update succeeds it is followed by exactly the
one getAllOrders re-fetch, and the orders state is never patched
locally — it becomes the re-fetched list when the fetch succeeds and
stays unchanged when the fetch fails; when the update fails no re-fetch
is issued and the orders state stays unchanged. -/
theorem c5_status_update_call_sequence_amended (s : AdminOrdersState) (sel : Order)
    (updateResult : Except Unit Unit) (fetchResult : Except Unit (List Order))
    (hsel : s.selectedOrder = some sel) :
    (updateResult = Except.ok () →
      (handleStatusSubmit s updateResult fetchResult).2
          = [Effect.callUpdateOrderStatus sel.id s.newStatus, Effect.callGetAllOrders] ∧
      (∀ data, fetchResult = Except.ok data →
          (handleStatusSubmit s updateResult fetchResult).1.orders = data) ∧
      (∀ e, fetchResult = Except.error e →
          (handleStatusSubmit s updateResult fetchResult).1.orders = s.orders)) ∧
    (∀ e, updateResult = Except.error e →
      (handleStatusSubmit s updateResult fetchResult).2
          = [Effect.callUpdateOrderStatus sel.id s.newStatus] ∧
      (handleStatusSubmit s updateResult fetchResult).1.orders = s.orders) := by
  constructor
  · intro hu
    subst hu
    refine ⟨by simp [handleStatusSubmit, hsel], ?_, ?_⟩
    · intro data hf
      subst hf
      simp [handleStatusSubmit, hsel, fetchOrdersRun]
    · intro e hf
      subst hf
      simp [handleStatusSubmit, hsel, fetchOrdersRun]
  · intro e hu
    subst hu
    constructor <;> simp [handleStatusSubmit, hsel]

/-- Witness for the amended claim C5 on the sample state, exercising
both the success run and the failure run. -/
theorem c5_status_update_call_sequence_amended_witness :
    (handleStatusSubmit sampleAdminOrdersState (Except.ok ()) (Except.ok [])).2
        = [Effect.callUpdateOrderStatus 7 OrderStatus.SHIPPED,
           Effect.callGetAllOrders] ∧
    (handleStatusSubmit sampleAdminOrdersState (Except.error ()) (Except.error ())).2
        = [Effect.callUpdateOrderStatus 7 OrderStatus.SHIPPED] :=
  ⟨((c5_status_update_call_sequence_amended sampleAdminOrdersState sampleOrder
      (Except.ok ()) (Except.ok []) rfl).1 rfl).1,
   ((c5_status_update_call_sequence_amended sampleAdminOrdersState sampleOrder
      (Except.error ()) (Except.error ()) rfl).2 () rfl).1⟩

/-! ## C10: confirm with no selected order is a no-op -/

/-- Claim C10: when no order is selected the confirm handler returns at
its first line: the screen state is returned unchanged in every field
and no effect is emitted. -/
theorem c10_submit_without_selection_noop (s : AdminOrdersState)
    (updateResult : Except Unit Unit) (fetchResult : Except Unit (List Order))
    (hsel : s.selectedOrder = none) :
    handleStatusSubmit s updateResult fetchResult = (s, []) := by
  simp [handleStatusSubmit, hsel]

/-- Witness for claim C10 on the sample state with the selection
cleared. -/
theorem c10_submit_without_selection_noop_witness :
    handleStatusSubmit { sampleAdminOrdersState with selectedOrder := none }
        (Except.error ()) (Except.ok [])
      = ({ sampleAdminOrdersState with selectedOrder := none }, []) :=
  c10_submit_without_selection_noop _ _ _ rfl

/-! ## C6: form validation blocks the create call -/

/-- Claim C6: a submission whose required fields are not all present,
or whose price does not parse as a number greater than zero, or whose
stock quantity does not parse as an integer at least zero, sets a local
validation error message and emits no effect at all — in particular no
create-product network call. -/
theorem c6_validation_blocks_create (s : FormState) (createResult : Except Unit Unit)
    (hinvalid : requiredFieldMissing s.formData = true ∨
      priceInvalid s.formData = true ∨ stockQuantityInvalid s.formData = true) :
    (handleSubmit s createResult).2 = [] ∧
    (handleSubmit s createResult).1.error.isSome = true := by
  simp only [handleSubmit]
  split_ifs with h1 h2 h3 <;> simp_all

/-- Witness for claim C6 on the form whose price field is the string
minus five. -/
theorem c6_validation_blocks_create_witness :
    (handleSubmit sampleInvalidPriceForm (Except.ok ())).2 = [] :=
  (c6_validation_blocks_create sampleInvalidPriceForm (Except.ok ())
    (Or.inr (Or.inl (by decide)))).1

/-! ## C8: failed create preserves the form contents -/

/-- Claim C8: when validation passes but the create call fails, the
generic error message is shown and formData is exactly the formData
before submission — no handler branch writes to it — so the form can be
resubmitted as-is. -/
theorem c8_create_failure_preserves_form (s : FormState)
    (hreq : requiredFieldMissing s.formData = false)
    (hprice : priceInvalid s.formData = false)
    (hstock : stockQuantityInvalid s.formData = false) :
    (handleSubmit s (Except.error ())).1.formData = s.formData ∧
    (handleSubmit s (Except.error ())).1.error = some "Failed to create product" := by
  simp [handleSubmit, hreq, hprice, hstock]

/-- Witness for claim C8 on the valid sample form with a failing create
call. -/
theorem c8_create_failure_preserves_form_witness :
    (handleSubmit sampleValidForm (Except.error ())).1.formData
      = sampleValidForm.formData :=
  (c8_create_failure_preserves_form sampleValidForm
    (by decide) (by decide) (by decide)).1

/-! ## C9: prefix parsing is accepted and submitted -/

/-- Claim C9: whenever the price parses (by the parseFloat head rule)
to a positive finite number and the stock quantity parses (by the
parseInt head rule) to a nonnegative integer, validation passes and the
create call is the first emitted effect, carrying exactly the
prefix-parsed numeric values in its payload — the unparsed remainder of
the input strings is silently discarded. -/
theorem c9_prefix_parsed_submission (s : FormState) (createResult : Except Unit Unit)
    (m e n : Int)
    (hreq : requiredFieldMissing s.formData = false)
    (hprice : jsParseFloat s.formData.price = JSNumber.num m e) (hm : 0 < m)
    (hstock : jsParseInt s.formData.stockQuantity = some n) (hn : 0 ≤ n) :
    (handleSubmit s createResult).2.head?
        = some (Effect.callCreateProduct (productDataOf s.formData)) ∧
    (productDataOf s.formData).price = JSNumber.num m e ∧
    (productDataOf s.formData).stockQuantity = some n := by
  have hpi : priceInvalid s.formData = false := by
    simp only [priceInvalid, hprice, JSNumber.isNaN, JSNumber.le0,
      Bool.false_or, decide_eq_false_iff_not]
    omega
  have hsi : stockQuantityInvalid s.formData = false := by
    simp only [stockQuantityInvalid, hstock, Option.isNone_some, optIntLtZero,
      Bool.false_or, decide_eq_false_iff_not]
    omega
  refine ⟨?_, by simp [productDataOf, hprice], by simp [productDataOf, hstock]⟩
  cases createResult <;> simp [handleSubmit, hreq, hpi, hsi]

/-- Witness for claim C9: price input 5abc parses to 5 (mantissa 5 at
exponent 0) and stock input 3.9 truncates to integer 3; both land in
the submitted payload. -/
theorem c9_prefix_parsed_submission_witness :
    (productDataOf samplePrefixForm.formData).price = JSNumber.num 5 0 ∧
    (productDataOf samplePrefixForm.formData).stockQuantity = some 3 ∧
    (JSNumber.num 5 0).finiteVal = some 5 := by
  refine ⟨(c9_prefix_parsed_submission samplePrefixForm (Except.ok ()) 5 0 3
      (by decide) (by decide) (by decide) (by decide) (by decide)).2.1,
    (c9_prefix_parsed_submission samplePrefixForm (Except.ok ()) 5 0 3
      (by decide) (by decide) (by decide) (by decide) (by decide)).2.2,
    by norm_num [JSNumber.finiteVal]⟩

/-! ## C7: currency formatting -/

/-- Claim C7: the currency formatter shared by the screens renders
1234.5 as the grouped two-fraction-digit dollar string and 0 as the
zero dollar string. -/
theorem c7_format_price :
    formatPrice (1234.5 : ℚ) = "$1,234.50" ∧ formatPrice 0 = "$0.00" := by
  have h : (1234.5 : ℚ) = Rat.mk' 2469 2 (by decide) (by decide) := by
    rw [Rat.mk'_eq_divInt, Rat.divInt_eq_div]
    norm_num
  rw [h]
  exact ⟨by decide, by decide⟩
